import Mathlib

/-!
Verification of the Context Storage Service of zeus-nexus
(src/context-storage/main.py) against its natural-language specification.

The service is a FastAPI application backed by PostgreSQL (durable tier)
and Redis (cache tier).  This file gives a shallow embedding of the
database-backed endpoints: each PostgreSQL table becomes a Lean list of
records, each endpoint becomes a pure function from the old state (plus an
explicit clock) to the new state and the response.  Conventions:

* Timestamps are integer epoch seconds (`Int`); SQL `NOW()` is the
  explicit parameter `now`; `INTERVAL` arithmetic becomes integer
  arithmetic in seconds (1 hour = 3600, 1 day = 86400).
* SQL `FLOAT` scores are modelled as exact rationals.
* `JSONB` objects are modelled as association lists from `String` to
  `String` (the claims only inspect top-level keys and values, and the
  service merges objects shallowly, so a flat map suffices); the `JSONB`
  operator `||` becomes `jsonbConcat` below.
* Nullable SQL columns and optional request fields become `Option`.
  Python truthiness tests on optional strings and integers
  (`if agent_name:`) are modelled by `strFilterVal` and `intFilterVal`,
  which treat the empty string and zero the same as absence.
* `asyncpg` statements outside an explicit transaction autocommit one by
  one, so an endpoint that raises midway keeps the effects of the
  statements already executed; fallible endpoints return `Except`.
* SQL `ORDER BY` is modelled with `List.insertionSort`; the relative
  order of rows tied under the sort key is unspecified in PostgreSQL, and
  the theorems below never depend on it.
-/

namespace ContextStorage

/-- A JSON object, restricted to string values (see the header comment). -/
abbrev JsonObj := List (String × String)

/-- The PostgreSQL `JSONB` operator `old || new` on objects: shallow
union in which keys of `new` overwrite same-named keys of `old`. -/
def jsonbConcat (old new : JsonObj) : JsonObj :=
  old.filter (fun p => (new.lookup p.1).isNone) ++ new

/-- Python truthiness of an optional string (`if s:`): `none` and the
empty string are both falsy.  Returns the effective filter value. -/
def strFilterVal : Option String → Option String
  | some s => if s = "" then none else some s
  | none => none

/-- Python truthiness of an optional integer (`if n:`): `none` and `0`
are both falsy.  Returns the effective filter value. -/
def intFilterVal : Option Int → Option Int
  | some n => if n = 0 then none else some n
  | none => none

/-- Models `json.dumps(x) if x else None` applied to an optional JSON
object: an absent or empty object is stored as SQL `NULL`. -/
def jsonObjOpt : Option JsonObj → Option JsonObj
  | some l => if l.isEmpty then none else some l
  | none => none

/-- A relationship map: entity-kind keys to lists of entity ids. -/
abbrev RelObj := List (String × List String)

/-- Models `json.dumps(x) if x else None` applied to an optional
relationship map. -/
def relObjOpt : Option RelObj → Option RelObj
  | some l => if l.isEmpty then none else some l
  | none => none

/-! ## Durable Event Log: table `conversation_memory` -/

/-- One row of the `conversation_memory` table. -/
structure ConversationRecord where
  id : Nat
  session_id : String
  agent_name : String
  user_id : Option String
  message_role : String
  content : String
  metadata : Option JsonObj
  importance_score : ℚ
  memory_type : String
  created_at : Int
  accessed_at : Int
  access_count : Nat
deriving Repr, DecidableEq

/-- The `conversation_memory` table together with its `SERIAL` id
sequence. -/
structure ConvDB where
  rows : List ConversationRecord
  next_id : Nat
deriving Repr, DecidableEq

/-- Request body of `POST /memory/conversation/store` (model
`ConversationMemory`). -/
structure ConversationMemoryIn where
  session_id : String
  agent_name : String
  user_id : Option String
  role : String
  content : String
  metadata : Option JsonObj
  importance_score : ℚ
  memory_type : String
deriving Repr, DecidableEq

/-- The row built by the `INSERT` of `store_conversation_memory`: all
defaulted columns (`created_at`, `accessed_at`, `access_count`) take
their schema defaults. -/
def mkConversationRecord (m : ConversationMemoryIn) (now : Int) (rid : Nat) :
    ConversationRecord :=
  { id := rid
    session_id := m.session_id
    agent_name := m.agent_name
    user_id := m.user_id
    message_role := m.role
    content := m.content
    metadata := jsonObjOpt m.metadata
    importance_score := m.importance_score
    memory_type := m.memory_type
    created_at := now
    accessed_at := now
    access_count := 0 }

/-- `store_conversation_memory` (main.py 273-308).  The durable `INSERT`
runs first and autocommits; the Redis calls that follow (`lpush`,
`ltrim`, `expire`) are not guarded by any `try`/`except`, so a cache
failure raises out of the handler after the insert has been committed.
The cache tier is modelled by the single flag `cacheOk` telling whether
the Redis calls succeed; no claim inspects the cached copy itself. -/
def store_conversation_memory (m : ConversationMemoryIn) (now : Int)
    (cacheOk : Bool) (db : ConvDB) : ConvDB × Except String Nat :=
  let rid := db.next_id
  let db' : ConvDB := { rows := db.rows ++ [mkConversationRecord m now rid], next_id := rid + 1 }
  if cacheOk then (db', Except.ok rid) else (db', Except.error "redis unavailable")

/-- Query parameters of `GET /memory/conversation/retrieve`. -/
structure ConversationQueryIn where
  agent_name : Option String
  session_id : Option String
  user_id : Option String
  limit : Nat
  min_importance : ℚ
  time_range_hours : Option Int
deriving Repr, DecidableEq

/-- The conjunctive `WHERE` clause assembled by
`retrieve_conversation_memory`: each condition is appended only when the
corresponding parameter is Python-truthy (for `min_importance`, only
when it is positive). -/
def convMatches (q : ConversationQueryIn) (now : Int) (r : ConversationRecord) : Bool :=
  (match strFilterVal q.agent_name with
   | some a => r.agent_name = a
   | none => true) &&
  (match strFilterVal q.session_id with
   | some s => r.session_id = s
   | none => true) &&
  (match strFilterVal q.user_id with
   | some u => r.user_id = some u
   | none => true) &&
  (if 0 < q.min_importance then q.min_importance ≤ r.importance_score else true) &&
  (match intFilterVal q.time_range_hours with
   | some h => now - h * 3600 < r.created_at
   | none => true)

/-- The access-tracking `UPDATE` of `retrieve_conversation_memory`:
`SET accessed_at = NOW(), access_count = access_count + 1
WHERE session_id = $1`, applied to one row. -/
def touchSession (s : String) (now : Int) (r : ConversationRecord) : ConversationRecord :=
  if r.session_id = s then
    { r with accessed_at := now, access_count := r.access_count + 1 }
  else r

/-- `retrieve_conversation_memory` (main.py 310-387).  When a (truthy)
session filter is supplied, the whole session is touched first; the
`SELECT` then runs over the updated table, ordered `created_at DESC`
and capped at `limit`. -/
def retrieve_conversation_memory (q : ConversationQueryIn) (now : Int) (db : ConvDB) :
    ConvDB × List ConversationRecord :=
  let db' : ConvDB :=
    match strFilterVal q.session_id with
    | some s => { db with rows := db.rows.map (touchSession s now) }
    | none => db
  let sorted := (db'.rows.filter (convMatches q now)).insertionSort
    (fun a b => b.created_at ≤ a.created_at)
  (db', sorted.take q.limit)

/-! ## Entity Store: table `entity_memory` -/

/-- One row of the `entity_memory` table. -/
structure EntityRecord where
  entity_type : String
  entity_id : String
  entity_name : String
  attributes : JsonObj
  relationships : Option RelObj
  agent_name : Option String
  last_mentioned : Int
  mention_count : Nat
  importance : ℚ
  created_at : Int
  updated_at : Int
deriving Repr, DecidableEq

/-- Request body of `POST /memory/entity/store` (model `EntityMemory`). -/
structure EntityMemoryIn where
  entity_type : String
  entity_id : String
  entity_name : String
  attributes : JsonObj
  relationships : Option RelObj
  agent_name : Option String
  importance : ℚ
deriving Repr, DecidableEq

/-- Match against the unique index `(entity_type, entity_id, agent_name)`
for a row whose agent column is the non-NULL value `a`.  A stored NULL
agent never matches (PostgreSQL unique indexes treat NULLs as
distinct), so `ON CONFLICT` can only fire against non-NULL agents. -/
def entityConflict (t i a : String) (r : EntityRecord) : Bool :=
  r.entity_type = t && r.entity_id = i && r.agent_name = some a

/-- The `DO UPDATE SET` clause of `store_entity_memory`: name and
importance are overwritten with the excluded (new) values, attributes
are merged with `||`, relationships are replaced wholesale, the mention
count is incremented and both timestamps refresh. -/
def updateEntity (e : EntityMemoryIn) (now : Int) (r : EntityRecord) : EntityRecord :=
  { r with
    entity_name := e.entity_name
    attributes := jsonbConcat r.attributes e.attributes
    relationships := relObjOpt e.relationships
    last_mentioned := now
    mention_count := r.mention_count + 1
    importance := e.importance
    updated_at := now }

/-- The row built by the `INSERT` arm of `store_entity_memory`
(`mention_count` is inserted as 1, timestamps default to `NOW()`). -/
def mkEntityRecord (e : EntityMemoryIn) (now : Int) : EntityRecord :=
  { entity_type := e.entity_type
    entity_id := e.entity_id
    entity_name := e.entity_name
    attributes := e.attributes
    relationships := relObjOpt e.relationships
    agent_name := e.agent_name
    last_mentioned := now
    mention_count := 1
    importance := e.importance
    created_at := now
    updated_at := now }

/-- `store_entity_memory` (main.py 391-422): `INSERT ... ON CONFLICT
(entity_type, entity_id, agent_name) DO UPDATE`.  With a NULL agent the
unique index never conflicts, so the insert arm always runs. -/
def store_entity_memory (e : EntityMemoryIn) (now : Int)
    (db : List EntityRecord) : List EntityRecord :=
  match e.agent_name with
  | none => db ++ [mkEntityRecord e now]
  | some a =>
    if db.any (entityConflict e.entity_type e.entity_id a) then
      db.map (fun r =>
        if entityConflict e.entity_type e.entity_id a r then updateEntity e now r else r)
    else db ++ [mkEntityRecord e now]

/-- The `WHERE` clause of `retrieve_entity`: type and id always, agent
only when the parameter is Python-truthy. -/
def entityQueryMatches (t i : String) (ag : Option String) (r : EntityRecord) : Bool :=
  r.entity_type = t && r.entity_id = i &&
  (match strFilterVal ag with
   | some a => r.agent_name = some a
   | none => true)

/-- `retrieve_entity` (main.py 424-456): `ORDER BY importance DESC,
mention_count DESC LIMIT 1`, `fetchrow`; `none` models the 404 path. -/
def retrieve_entity (t i : String) (ag : Option String)
    (db : List EntityRecord) : Option EntityRecord :=
  ((db.filter (entityQueryMatches t i ag)).insertionSort
    (fun a b => b.importance < a.importance ∨
      (a.importance = b.importance ∧ b.mention_count ≤ a.mention_count))).head?

/-! ## Working Memory Store: table `working_memory` -/

/-- One row of the `working_memory` table. -/
structure WorkingRecord where
  agent_name : String
  session_id : String
  context_type : String
  context_data : JsonObj
  ttl_seconds : Int
  created_at : Int
  expires_at : Int
deriving Repr, DecidableEq

/-- Request body of `POST /memory/working/store` (model `WorkingMemory`). -/
structure WorkingMemoryIn where
  agent_name : String
  session_id : String
  context_type : String
  context_data : JsonObj
  ttl_seconds : Int
deriving Repr, DecidableEq

/-- Match against the unique index `(agent_name, session_id,
context_type)` of `working_memory` (all three columns are `NOT NULL`). -/
def workingKey (a s c : String) (r : WorkingRecord) : Bool :=
  r.agent_name = a && r.session_id = s && r.context_type = c

/-- The `DO UPDATE SET` clause of `store_working_memory`: the
context-data maps are merged with `||`, `expires_at` takes the excluded
value and `created_at` resets to `NOW()`; the `ttl_seconds` column is
not listed and therefore keeps its stored value. -/
def updateWorking (m : WorkingMemoryIn) (now expires : Int) (r : WorkingRecord) : WorkingRecord :=
  { r with
    context_data := jsonbConcat r.context_data m.context_data
    expires_at := expires
    created_at := now }

/-- `store_working_memory` (main.py 521-552): computes
`expires_at = now + ttl_seconds` in the handler, upserts, and returns
the expiry. -/
def store_working_memory (m : WorkingMemoryIn) (now : Int)
    (db : List WorkingRecord) : List WorkingRecord × Int :=
  let expires := now + m.ttl_seconds
  let db' :=
    if db.any (workingKey m.agent_name m.session_id m.context_type) then
      db.map (fun r =>
        if workingKey m.agent_name m.session_id m.context_type r then
          updateWorking m now expires r
        else r)
    else
      db ++ [{ agent_name := m.agent_name
               session_id := m.session_id
               context_type := m.context_type
               context_data := m.context_data
               ttl_seconds := m.ttl_seconds
               created_at := now
               expires_at := expires }]
  (db', expires)

/-- Response shape of `GET /memory/working/retrieve`: the handler
returns a single record, a 404, or (without a truthy `context_type`)
the list of all unexpired records of the session. -/
inductive WorkingResponse where
  | notFound
  | single (r : WorkingRecord)
  | listing (rs : List WorkingRecord)
deriving Repr, DecidableEq

/-- `retrieve_working_memory` (main.py 554-590): both branches require
`expires_at > NOW()`; the single-record branch uses `fetchrow`. -/
def retrieve_working_memory (a s : String) (ct : Option String) (now : Int)
    (db : List WorkingRecord) : WorkingResponse :=
  match strFilterVal ct with
  | some c =>
    match (db.filter (fun r => workingKey a s c r && now < r.expires_at)).head? with
    | some r => WorkingResponse.single r
    | none => WorkingResponse.notFound
  | none =>
    WorkingResponse.listing
      (db.filter (fun r => r.agent_name = a && r.session_id = s && now < r.expires_at))

/-- The context-data map stored under the key of `m` before a store
(empty when the key is absent); used to state the merge-union
round-trip property. -/
def workingOldData (m : WorkingMemoryIn) (db : List WorkingRecord) : JsonObj :=
  match (db.filter (workingKey m.agent_name m.session_id m.context_type)).head? with
  | some r0 => r0.context_data
  | none => []

/-! ## Consolidation Engine: `run_consolidation` and table
`memory_consolidation` -/

/-- One row of the `memory_consolidation` table; the `result` JSONB
object carries a single count field and is modelled by the count
itself. -/
structure ConsolidationRecord where
  agent_name : String
  consolidation_type : String
  source_ids : List Nat
  result_count : Nat
  created_at : Int
deriving Repr, DecidableEq

/-- The `WHERE` clause of the consolidation `SELECT`: same agent and
session, older than one day, accessed fewer than two times. -/
def consolidationQualifies (agent session : String) (now : Int)
    (r : ConversationRecord) : Bool :=
  r.agent_name = agent && r.session_id = session &&
  r.created_at < now - 86400 && r.access_count < 2

/-- The row set fetched by `run_consolidation`: qualifying rows,
`ORDER BY created_at ASC LIMIT 100`. -/
def consolidationFetch (agent session : String) (now : Int) (db : ConvDB) :
    List ConversationRecord :=
  ((db.rows.filter (consolidationQualifies agent session now)).insertionSort
    (fun a b => a.created_at ≤ b.created_at)).take 100

/-- `run_consolidation` (main.py 614-647).  Fewer than 10 fetched rows
is a no-op.  Otherwise the fetched rows with `importance_score < 0.3`
have their score multiplied by 0.8 (the `UPDATE` is guarded by
`if low_importance_ids:`, a no-op guard since updating an empty id set
changes nothing) and one log row is inserted referencing those ids. -/
def run_consolidation (agent session : String) (now : Int) (db : ConvDB)
    (log : List ConsolidationRecord) : ConvDB × List ConsolidationRecord :=
  let fetched := consolidationFetch agent session now db
  if fetched.length < 10 then (db, log)
  else
    let lowIds := (fetched.filter (fun r => r.importance_score < 0.3)).map (fun r => r.id)
    let db' :=
      if lowIds.isEmpty then db
      else { db with rows := db.rows.map (fun r =>
        if lowIds.contains r.id then
          { r with importance_score := r.importance_score * 0.8 }
        else r) }
    (db', log ++ [{ agent_name := agent
                    consolidation_type := "reduce_importance"
                    source_ids := lowIds
                    result_count := lowIds.length
                    created_at := now }])

/-! ## Cleanup Process: `cleanup_expired_memories` -/

/-- The `WHERE` clause of the conversation-memory `DELETE` in the
cleanup endpoint: older than 90 days, importance below 0.2, never
accessed. -/
def cleanupConvQualifies (now : Int) (r : ConversationRecord) : Bool :=
  r.created_at < now - 90 * 86400 &&
  r.importance_score < 0.2 && r.access_count = 0

/-- `cleanup_expired_memories` (main.py 649-673).  The first statement
deletes expired working-memory rows and autocommits.  The second
statement is `DELETE FROM conversation_memory WHERE ... RETURNING
COUNT(*)`: PostgreSQL rejects aggregate functions in a `RETURNING`
clause (error 42803, "aggregate functions are not allowed in
RETURNING"), so `fetchval` raises, no conversation row is ever deleted,
and the handler errors out instead of reporting a count. -/
def cleanup_expired_memories (now : Int) (wdb : List WorkingRecord) (cdb : ConvDB) :
    (List WorkingRecord × ConvDB) × Except String Nat :=
  let wdb' := wdb.filter (fun r => !(r.expires_at < now))
  ((wdb', cdb), Except.error "aggregate functions are not allowed in RETURNING")

/-! ## Concrete fixtures used by the witness theorems -/

/-- A durable record 100 days older than `c1Now`, importance 0.1, never
accessed: the cleanup example of the specification. -/
def c1Record : ConversationRecord :=
  { id := 1
    session_id := "s"
    agent_name := "a"
    user_id := none
    message_role := "user"
    content := "hello"
    metadata := none
    importance_score := 0.1
    memory_type := "episodic"
    created_at := 0
    accessed_at := 0
    access_count := 0 }

/-- The cleanup clock: 100 days after `c1Record` was created. -/
def c1Now : Int := 100 * 86400

/-- A store-conversation request used to exercise the cache path. -/
def c2Mem : ConversationMemoryIn :=
  { session_id := "s"
    agent_name := "a"
    user_id := none
    role := "user"
    content := "hi"
    metadata := none
    importance_score := 0.5
    memory_type := "episodic" }

/-- An empty Event Log whose next id is 1. -/
def c2Db : ConvDB := { rows := [], next_id := 1 }

/-- First store of the entity scenario of the specification. -/
def c3First : EntityMemoryIn :=
  { entity_type := "person"
    entity_id := "nguyen_van_a"
    entity_name := "Nguyen Van A"
    attributes := [("dept", "eng")]
    relationships := none
    agent_name := some "hermes"
    importance := 0.5 }

/-- Second store of the same entity with a disjoint attribute map. -/
def c3Second : EntityMemoryIn :=
  { c3First with attributes := [("jira_username", "nguyenvana")] }

/-- The entity table after the first store of the scenario. -/
def c3Db : List EntityRecord := store_entity_memory c3First 0 []

/-- The row the first store of the scenario inserted. -/
def c3Row : EntityRecord := mkEntityRecord c3First 0

/-- The first store of the entity scenario without any agent, as the
specification scenario states it (agent absent means SQL `NULL`). -/
def c3NoAgentFirst : EntityMemoryIn := { c3First with agent_name := none }

/-- The second, disjoint-attribute store of the scenario, also without
an agent. -/
def c3NoAgentSecond : EntityMemoryIn := { c3Second with agent_name := none }

/-- The entity table after the first agent-less store of the scenario. -/
def c3NoAgentDb : List EntityRecord := store_entity_memory c3NoAgentFirst 0 []

/-- An Event Log with one record in session `s` and one in session `t`. -/
def c4Db : ConvDB :=
  { rows :=
      [{ c1Record with id := 1, session_id := "s" },
       { c1Record with id := 2, session_id := "t", importance_score := 0.9 }]
    next_id := 3 }

/-- A retrieval filtered to session `s` and nothing else. -/
def c4Query : ConversationQueryIn :=
  { agent_name := none
    session_id := some "s"
    user_id := none
    limit := 50
    min_importance := 0
    time_range_hours := none }

/-- The same retrieval without any session filter. -/
def c4QueryNoSession : ConversationQueryIn := { c4Query with session_id := none }

/-- A record of session `s` with importance 0.1, never accessed. -/
def c5Record : ConversationRecord := { c1Record with content := "x" }

/-- An Event Log holding only `c5Record`. -/
def c5Db : ConvDB := { rows := [c5Record], next_id := 2 }

/-- A session-filtered retrieval whose importance floor excludes
`c5Record` from the result set. -/
def c5ExQuery : ConversationQueryIn := { c4Query with min_importance := 0.5 }

/-- A session-filtered retrieval that returns `c5Record`. -/
def c5IncQuery : ConversationQueryIn := c4Query

/-- First store of a working-memory round trip (TTL one hour). -/
def c6First : WorkingMemoryIn :=
  { agent_name := "a"
    session_id := "s"
    context_type := "current_task"
    context_data := [("step", "plan")]
    ttl_seconds := 3600 }

/-- Second store to the same key: a disjoint map and a shorter TTL. -/
def c6Second : WorkingMemoryIn :=
  { c6First with context_data := [("phase", "exec")], ttl_seconds := 600 }

/-- The working-memory table after the first store at time 0. -/
def c6Db : List WorkingRecord := (store_working_memory c6First 0 []).1

/-- The i-th fixture record of the consolidation scenario: in scope
`(a, s)`, importance 0.2, created at second `i`, never accessed. -/
def c7Record (i : Nat) : ConversationRecord :=
  { id := i
    session_id := "s"
    agent_name := "a"
    user_id := none
    message_role := "user"
    content := "old"
    metadata := none
    importance_score := 0.2
    memory_type := "episodic"
    created_at := Int.ofNat i
    accessed_at := 0
    access_count := 0 }

/-- Twelve qualifying records, ids 1 to 12. -/
def c7Db : ConvDB :=
  { rows := (List.range 12).map (fun i => c7Record (i + 1)), next_id := 13 }

/-- Only five qualifying records, ids 1 to 5. -/
def c7SmallDb : ConvDB :=
  { rows := (List.range 5).map (fun i => c7Record (i + 1)), next_id := 6 }

/-- The consolidation clock: two days after the fixture records. -/
def c7Now : Int := 2 * 86400

/-- First store of an entity with a high caller-supplied importance. -/
def c8First : EntityMemoryIn :=
  { entity_type := "project"
    entity_id := "zeus"
    entity_name := "Zeus"
    attributes := [("status", "active")]
    relationships := none
    agent_name := some "athena"
    importance := 0.9 }

/-- Second store of the same entity at the default importance 0.5. -/
def c8Second : EntityMemoryIn :=
  { c8First with entity_name := "Zeus Nexus", importance := 0.5 }

/-- The entity table after the first high-importance store. -/
def c8Db : List EntityRecord := store_entity_memory c8First 0 []

/-- The row the first high-importance store inserted. -/
def c8Row : EntityRecord := mkEntityRecord c8First 0

/-- The first high-importance entity store without an agent. -/
def c8NoAgentFirst : EntityMemoryIn := { c8First with agent_name := none }

/-- The second, default-importance store of the same entity, also
without an agent. -/
def c8NoAgentSecond : EntityMemoryIn := { c8Second with agent_name := none }

/-- The entity table after the first agent-less high-importance store. -/
def c8NoAgentDb : List EntityRecord := store_entity_memory c8NoAgentFirst 0 []

/-- First store of a working-memory key with TTL 3600. -/
def c9First : WorkingMemoryIn :=
  { agent_name := "a"
    session_id := "s"
    context_type := "system_state"
    context_data := [("mode", "boot")]
    ttl_seconds := 3600 }

/-- Second store to the same key with TTL 60. -/
def c9Second : WorkingMemoryIn :=
  { c9First with context_data := [("mode", "run")], ttl_seconds := 60 }

/-- The working-memory table after the first store at time 0. -/
def c9Db : List WorkingRecord := (store_working_memory c9First 0 []).1

/-- The row the first store of the C9 fixture inserted. -/
def c9Row : WorkingRecord :=
  { agent_name := "a"
    session_id := "s"
    context_type := "system_state"
    context_data := [("mode", "boot")]
    ttl_seconds := 3600
    created_at := 0
    expires_at := 3600 }

/-- Ten qualifying records whose importance 0.5 is above the decay
threshold. -/
def c10Db : ConvDB :=
  { rows := (List.range 10).map (fun i => { c7Record (i + 1) with importance_score := 0.5 })
    next_id := 11 }

/-! ## Helper lemmas -/

theorem lookup_filter_keys (old new : JsonObj) (k : String) :
    (old.filter (fun p => (new.lookup p.1).isNone)).lookup k =
      if (new.lookup k).isNone then old.lookup k else none := by
  induction old with
  | nil => simp
  | cons p ps ih =>
    obtain ⟨k0, v0⟩ := p
    by_cases hk : k = k0
    · subst hk
      cases hnew : (new.lookup k).isNone with
      | true => simp [List.filter_cons, hnew, List.lookup]
      | false => simp [List.filter_cons, hnew, List.lookup, ih]
    · have hb : (k == k0) = false := by simp [hk]
      cases hnew : (new.lookup k0).isNone with
      | true => simp [List.filter_cons, hnew, List.lookup, hb, ih]
      | false => simp [List.filter_cons, hnew, List.lookup, hb, ih]

theorem lookup_jsonbConcat (old new : JsonObj) (k : String) :
    (jsonbConcat old new).lookup k = (new.lookup k).or (old.lookup k) := by
  unfold jsonbConcat
  rw [List.lookup_append, lookup_filter_keys]
  cases hnew : new.lookup k <;> simp [hnew]

theorem filter_map_update {α : Type} (p q : α → Bool) (u : α → α) (l : List α)
    (h1 : ∀ a, p a = true → q (u a) = true)
    (h2 : ∀ a, p a = false → q a = false) :
    (l.map (fun a => if p a then u a else a)).filter q = (l.filter p).map u := by
  induction l with
  | nil => rfl
  | cons a l ih =>
    cases hp : p a with
    | true => simp [List.filter_cons, hp, h1 a hp, ih]
    | false => simp [List.filter_cons, hp, h2 a hp, ih]

theorem strFilterVal_some {s : String} (h : s ≠ "") :
    strFilterVal (some s) = some s := by
  simp [strFilterVal, h]

theorem consolidationFetch_subset (agent session : String) (now : Int) (db : ConvDB) :
    ∀ r ∈ consolidationFetch agent session now db, r ∈ db.rows := by
  intro r hr
  unfold consolidationFetch at hr
  have h1 := (List.take_sublist 100 _).subset hr
  have h2 := (List.perm_insertionSort _ _).subset h1
  exact (List.mem_filter.mp h2).1

theorem touchSession_session (s : String) (now : Int) (r : ConversationRecord) :
    (touchSession s now r).session_id = r.session_id := by
  unfold touchSession
  split <;> rfl

theorem retrieve_conversation_state (q : ConversationQueryIn) (now : Int) (db : ConvDB) :
    (retrieve_conversation_memory q now db).1 =
      (match strFilterVal q.session_id with
       | some s => { db with rows := db.rows.map (touchSession s now) }
       | none => db) := rfl

theorem retrieve_conversation_result (q : ConversationQueryIn) (now : Int) (db : ConvDB) :
    (retrieve_conversation_memory q now db).2 =
      (((retrieve_conversation_memory q now db).1.rows.filter (convMatches q now)).insertionSort
        (fun a b => b.created_at ≤ a.created_at)).take q.limit := rfl

theorem filter_touch (s : String) (now : Int) (q : ConversationRecord → Bool)
    (l : List ConversationRecord)
    (h1 : ∀ x, x.session_id = s → q (touchSession s now x) = true)
    (h2 : ∀ x, x.session_id ≠ s → q x = false) :
    (l.map (touchSession s now)).filter q =
      (l.filter (fun x => x.session_id = s)).map (touchSession s now) := by
  induction l with
  | nil => rfl
  | cons x l ih =>
    by_cases hx : x.session_id = s
    · simp [List.filter_cons, h1 x hx, hx, ih]
    · have hfix : touchSession s now x = x := by simp [touchSession, hx]
      simp [List.filter_cons, hfix, h2 x hx, hx, ih]

theorem entityConflict_updateEntity (e : EntityMemoryIn) (now : Int) (t i a : String)
    (r : EntityRecord) :
    entityConflict t i a (updateEntity e now r) = entityConflict t i a r := rfl

theorem entityQueryMatches_agent (t i a : String) (ha : a ≠ "") (r : EntityRecord) :
    entityQueryMatches t i (some a) r = entityConflict t i a r := by
  unfold entityQueryMatches entityConflict
  rw [strFilterVal_some ha]

theorem store_entity_existing (e : EntityMemoryIn) (a : String) (r0 : EntityRecord)
    (now : Int) (db : List EntityRecord)
    (ha : e.agent_name = some a)
    (hu : db.filter (entityConflict e.entity_type e.entity_id a) = [r0]) :
    (store_entity_memory e now db).filter (entityConflict e.entity_type e.entity_id a) =
      [updateEntity e now r0] := by
  have hr0 : r0 ∈ db.filter (entityConflict e.entity_type e.entity_id a) := by
    rw [hu]; exact List.mem_singleton_self r0
  have hmem := List.mem_filter.mp hr0
  have hany : db.any (entityConflict e.entity_type e.entity_id a) = true :=
    List.any_eq_true.mpr ⟨r0, hmem.1, hmem.2⟩
  unfold store_entity_memory
  rw [ha]
  simp only [hany, if_true]
  rw [filter_map_update (entityConflict e.entity_type e.entity_id a)
    (entityConflict e.entity_type e.entity_id a) (updateEntity e now) db
    (fun x hx => by rw [entityConflict_updateEntity]; exact hx)
    (fun x hx => hx)]
  rw [hu]
  rfl

theorem workingKey_updateWorking (m : WorkingMemoryIn) (now expires : Int)
    (a s c : String) (r : WorkingRecord) :
    workingKey a s c (updateWorking m now expires r) = workingKey a s c r := rfl

theorem store_working_existing (m : WorkingMemoryIn) (now : Int)
    (db : List WorkingRecord) (r0 : WorkingRecord)
    (hu : db.filter (workingKey m.agent_name m.session_id m.context_type) = [r0]) :
    (store_working_memory m now db).1.filter
        (workingKey m.agent_name m.session_id m.context_type) =
      [updateWorking m now (now + m.ttl_seconds) r0] := by
  have hr0 : r0 ∈ db.filter (workingKey m.agent_name m.session_id m.context_type) := by
    rw [hu]; exact List.mem_singleton_self r0
  have hmem := List.mem_filter.mp hr0
  have hany : db.any (workingKey m.agent_name m.session_id m.context_type) = true :=
    List.any_eq_true.mpr ⟨r0, hmem.1, hmem.2⟩
  unfold store_working_memory
  simp only [hany, if_true]
  rw [filter_map_update (workingKey m.agent_name m.session_id m.context_type)
    (workingKey m.agent_name m.session_id m.context_type)
    (updateWorking m now (now + m.ttl_seconds)) db
    (fun x hx => by rw [workingKey_updateWorking]; exact hx)
    (fun x hx => hx)]
  rw [hu]
  rfl

theorem retrieve_working_single (a s c : String) (now : Int)
    (db : List WorkingRecord) (hc : c ≠ "") :
    retrieve_working_memory a s (some c) now db =
      (match (db.filter (fun r =>
          workingKey a s c r && decide (now < r.expires_at))).head? with
       | some r => WorkingResponse.single r
       | none => WorkingResponse.notFound) := by
  unfold retrieve_working_memory
  rw [strFilterVal_some hc]

/-! ## Claim theorems -/

section

attribute [local semireducible] Rat.mul Rat.add Rat.sub Rat.inv Rat.ofScientific

/-- C1: claim theorem for the code bug.  The record of the cleanup
scenario (100 days old, importance 0.1, never accessed) satisfies all
three conditions of the `DELETE` statement of
`cleanup_expired_memories`, and the same record with `access_count = 1`
does not; but the statement carries `RETURNING COUNT(*)`, which
PostgreSQL rejects (aggregate functions are not allowed in a
`RETURNING` clause), so the call errors out, deletes no conversation
row at all, and never reports a count. -/
theorem cleanup_returning_aggregate_rejected :
    cleanupConvQualifies c1Now c1Record = true ∧
    cleanupConvQualifies c1Now { c1Record with access_count := 1 } = false ∧
    cleanup_expired_memories c1Now [] { rows := [c1Record], next_id := 2 } =
      (([], { rows := [c1Record], next_id := 2 }),
        Except.error "aggregate functions are not allowed in RETURNING") := by
  refine ⟨by decide, by decide, rfl⟩

/-- C2: counterexample.  When the Redis push after the durable insert
fails, `store_conversation_memory` does not swallow the error: the call
surfaces the cache failure instead of returning success with the new
record id (the durable row, however, is already committed). -/
theorem store_conversation_cache_error_cx :
    (store_conversation_memory c2Mem 0 false c2Db).2 =
      Except.error "redis unavailable" ∧
    (store_conversation_memory c2Mem 0 false c2Db).2 ≠ Except.ok c2Db.next_id ∧
    (store_conversation_memory c2Mem 0 false c2Db).1.rows.length = 1 := by
  refine ⟨rfl, by intro h; simp [store_conversation_memory, c2Db] at h, rfl⟩

/-- C2: amended claim.  The durable insert always commits (the cache
push runs after it and outside any transaction), but the result of the
call reports the new id only when the cache operations succeed; a cache
failure surfaces as an error instead of being swallowed. -/
theorem store_conversation_durable_commit_cache_error_surfaces
    (m : ConversationMemoryIn) (now : Int) (b : Bool) (db : ConvDB) :
    (store_conversation_memory m now b db).1.rows =
      db.rows ++ [mkConversationRecord m now db.next_id] ∧
    (store_conversation_memory m now b db).2 =
      (if b then Except.ok db.next_id else Except.error "redis unavailable") := by
  unfold store_conversation_memory
  cases b <;> exact ⟨rfl, rfl⟩

/-- C4: a retrieve-conversation call with a (truthy) session filter
first touches every Event Log record of that session — bumping
`access_count` by exactly 1 and refreshing `accessed_at` to now, with
every other field and every record outside the session unchanged —
regardless of the other filters and of the returned result; a call
without a session filter modifies no record. -/
theorem retrieve_conversation_session_touch
    (q : ConversationQueryIn) (now : Int) (db : ConvDB) :
    ((strFilterVal q.session_id).isNone →
      (retrieve_conversation_memory q now db).1 = db) ∧
    (∀ s, strFilterVal q.session_id = some s →
      List.Forall₂ (fun r r' =>
        (r.session_id = s →
          r' = { r with accessed_at := now, access_count := r.access_count + 1 }) ∧
        (r.session_id ≠ s → r' = r))
        db.rows (retrieve_conversation_memory q now db).1.rows) := by
  constructor
  · intro h
    rw [retrieve_conversation_state]
    cases hs : strFilterVal q.session_id with
    | none => rfl
    | some s => rw [hs] at h; simp at h
  · intro s hs
    rw [retrieve_conversation_state, hs]
    rw [show ({ db with rows := db.rows.map (touchSession s now) } : ConvDB).rows =
      db.rows.map (touchSession s now) from rfl]
    rw [List.forall₂_map_right_iff, List.forall₂_same]
    intro r _
    by_cases h : r.session_id = s <;> simp [touchSession, h]

/-- C4 witness: with a session filter on `s`, the record in session `s`
is touched and the record in session `t` is untouched; without a
session filter the state is unchanged. -/
theorem retrieve_conversation_session_touch_witness :
    (strFilterVal c4Query.session_id = some "s" ∧
      List.Forall₂ (fun r r' =>
        (r.session_id = "s" →
          r' = { r with accessed_at := 7, access_count := r.access_count + 1 }) ∧
        (r.session_id ≠ "s" → r' = r))
        c4Db.rows (retrieve_conversation_memory c4Query 7 c4Db).1.rows) ∧
    ((strFilterVal c4QueryNoSession.session_id).isNone ∧
      (retrieve_conversation_memory c4QueryNoSession 7 c4Db).1 = c4Db) ∧
    (retrieve_conversation_memory c4Query 7 c4Db).1.rows =
      [{ c1Record with id := 1, session_id := "s", accessed_at := 7, access_count := 1 },
       { c1Record with id := 2, session_id := "t", importance_score := 0.9 }] := by
  refine ⟨⟨by decide, (retrieve_conversation_session_touch c4Query 7 c4Db).2 "s" (by decide)⟩,
    ⟨by decide, (retrieve_conversation_session_touch c4QueryNoSession 7 c4Db).1 (by decide)⟩,
    by decide⟩

/-- C5: counterexample.  A session-filtered retrieval whose importance
floor excludes the only record of the session returns an empty result
set, yet that record has its `access_count` bumped from 0 to 1: a call
whose result set does not include a record can still increase its
access count, contradicting the claim. -/
theorem retrieve_conversation_touch_without_result_cx :
    (retrieve_conversation_memory c5ExQuery 7 c5Db).2 = [] ∧
    (retrieve_conversation_memory c5ExQuery 7 c5Db).1.rows =
      [{ c5Record with accessed_at := 7, access_count := 1 }] := by
  constructor <;> decide

/-- C5: amended claim.  A retrieve-conversation call filtered to the
(nonempty) session of a stored record r, with no other restricting
filters and a limit at least the session size, returns r (in its
touched form); and any such session-filtered call bumps the access
count of r by exactly 1 whether or not r appears in the result set:
the touch is session-wide, not per returned row. -/
theorem retrieve_conversation_returns_and_touches
    (r : ConversationRecord) (q : ConversationQueryIn) (now : Int) (db : ConvDB)
    (hr : r ∈ db.rows)
    (hsession : q.session_id = some r.session_id)
    (hs : r.session_id ≠ "")
    (hagent : q.agent_name = none)
    (huser : q.user_id = none)
    (hmin : q.min_importance = 0)
    (htime : q.time_range_hours = none)
    (hlimit : (db.rows.filter (fun x => x.session_id = r.session_id)).length ≤ q.limit) :
    { r with accessed_at := now, access_count := r.access_count + 1 } ∈
      (retrieve_conversation_memory q now db).2 ∧
    (retrieve_conversation_memory q now db).1.rows =
      db.rows.map (touchSession r.session_id now) := by
  have hsv : strFilterVal q.session_id = some r.session_id := by
    rw [hsession]; exact strFilterVal_some hs
  have hmatch : ∀ x, convMatches q now x = decide (x.session_id = r.session_id) := by
    intro x
    unfold convMatches
    rw [hagent, huser, hmin, htime, hsv]
    simp [strFilterVal, intFilterVal]
  have hstate : (retrieve_conversation_memory q now db).1.rows =
      db.rows.map (touchSession r.session_id now) := by
    rw [retrieve_conversation_state, hsv]
  refine ⟨?_, hstate⟩
  rw [retrieve_conversation_result, hstate]
  rw [filter_touch r.session_id now (convMatches q now) db.rows
    (fun x hx => by rw [hmatch, touchSession_session]; simp [hx])
    (fun x hx => by rw [hmatch]; simp [hx])]
  have hperm := List.perm_insertionSort
    (fun a b : ConversationRecord => b.created_at ≤ a.created_at)
    ((db.rows.filter (fun x => x.session_id = r.session_id)).map
      (touchSession r.session_id now))
  rw [List.take_of_length_le (by rw [hperm.length_eq, List.length_map]; exact hlimit)]
  rw [hperm.mem_iff]
  have hrmem : r ∈ db.rows.filter (fun x => x.session_id = r.session_id) :=
    List.mem_filter.mpr ⟨hr, by simp⟩
  have : touchSession r.session_id now r =
      { r with accessed_at := now, access_count := r.access_count + 1 } := by
    simp [touchSession]
  exact this ▸ List.mem_map_of_mem (touchSession r.session_id now) hrmem

/-- C5 witness: the amended claim at the concrete fixture -- the
session-filtered call with no importance floor returns the touched
record and touches the whole session. -/
theorem retrieve_conversation_returns_and_touches_witness :
    (c5Record ∈ c5Db.rows ∧ c5IncQuery.session_id = some c5Record.session_id ∧
      (c5Db.rows.filter (fun x => x.session_id = c5Record.session_id)).length ≤
        c5IncQuery.limit) ∧
    ({ c5Record with accessed_at := 7, access_count := 1 } ∈
      (retrieve_conversation_memory c5IncQuery 7 c5Db).2 ∧
    (retrieve_conversation_memory c5IncQuery 7 c5Db).1.rows =
      c5Db.rows.map (touchSession c5Record.session_id 7)) := by
  refine ⟨⟨by decide, by decide, by decide⟩, ?_⟩
  exact retrieve_conversation_returns_and_touches c5Record c5IncQuery 7 c5Db
    (by decide) (by decide) (by decide) (by decide) (by decide) (by decide)
    (by decide) (by decide)

/-- C3: counterexample.  The scenario of the specification stores the
same entity twice WITHOUT an agent.  A stored NULL agent never
conflicts under the unique index `(entity_type, entity_id,
agent_name)` (PostgreSQL treats NULLs as distinct), so the second
store inserts a second independent row instead of merging: the table
ends with two rows, each with mention count 1 and an unmerged attribute
map, and get-entity returns a row with mention count 1, not the claimed
union with mention count 2. -/
theorem store_entity_no_agent_duplicates_cx :
    (store_entity_memory c3NoAgentSecond 5 c3NoAgentDb).length = 2 ∧
    (store_entity_memory c3NoAgentSecond 5 c3NoAgentDb).map (fun r => r.attributes) =
      [[("dept", "eng")], [("jira_username", "nguyenvana")]] ∧
    (store_entity_memory c3NoAgentSecond 5 c3NoAgentDb).map (fun r => r.mention_count) =
      [1, 1] ∧
    (retrieve_entity "person" "nguyen_van_a" none
        (store_entity_memory c3NoAgentSecond 5 c3NoAgentDb)).map
      (fun r => r.mention_count) = some 1 := by
  refine ⟨by decide, by decide, by decide, by decide⟩

/-- C3: amended claim.  A repeated store-entity to an existing
composite key `(entity_type, entity_id, agent_name)` with a present
(non-NULL) agent merges the attribute maps (shallow union, new keys
overwrite same-named old keys, unmentioned old keys preserved -- the
`Option.or` equation below), replaces the relationships wholesale with
the new stored value, increments the mention count by exactly 1 and
resets `last_mentioned` to now, and a get-entity for that key returns
the merged row.  With an absent agent the unique index never conflicts
(NULLs are distinct), so a repeated store duplicates the row instead of
merging -- the counterexample above. -/
theorem store_entity_repeat_merges_attributes (e : EntityMemoryIn) (a : String)
    (r0 : EntityRecord) (now : Int) (db : List EntityRecord)
    (ha : e.agent_name = some a) (hne : a ≠ "")
    (hu : db.filter (entityConflict e.entity_type e.entity_id a) = [r0]) :
    ∃ r1, retrieve_entity e.entity_type e.entity_id (some a)
        (store_entity_memory e now db) = some r1 ∧
      (∀ k, r1.attributes.lookup k =
        (e.attributes.lookup k).or (r0.attributes.lookup k)) ∧
      r1.relationships = relObjOpt e.relationships ∧
      r1.mention_count = r0.mention_count + 1 ∧
      r1.last_mentioned = now := by
  refine ⟨updateEntity e now r0, ?_, ?_, rfl, rfl, rfl⟩
  · unfold retrieve_entity
    have hq : (store_entity_memory e now db).filter
        (entityQueryMatches e.entity_type e.entity_id (some a)) =
        [updateEntity e now r0] := by
      have hfun : entityQueryMatches e.entity_type e.entity_id (some a) =
          entityConflict e.entity_type e.entity_id a :=
        funext (entityQueryMatches_agent e.entity_type e.entity_id a hne)
      rw [hfun]
      exact store_entity_existing e a r0 now db ha hu
    rw [hq, List.perm_singleton.mp (List.perm_insertionSort _ _)]
    rfl
  · intro k
    exact lookup_jsonbConcat r0.attributes e.attributes k

/-- C3 witness: the scenario of the specification -- the second store
with a disjoint attribute map yields the union of both maps and mention
count 2, and get-entity returns exactly that row. -/
theorem store_entity_repeat_merges_attributes_witness :
    (c3Second.agent_name = some "hermes" ∧
      c3Db.filter (entityConflict c3Second.entity_type c3Second.entity_id "hermes") =
        [c3Row]) ∧
    (∃ r1, retrieve_entity c3Second.entity_type c3Second.entity_id (some "hermes")
        (store_entity_memory c3Second 5 c3Db) = some r1 ∧
      (∀ k, r1.attributes.lookup k =
        (c3Second.attributes.lookup k).or (c3Row.attributes.lookup k)) ∧
      r1.relationships = relObjOpt c3Second.relationships ∧
      r1.mention_count = c3Row.mention_count + 1 ∧
      r1.last_mentioned = 5) ∧
    retrieve_entity "person" "nguyen_van_a" (some "hermes")
        (store_entity_memory c3Second 5 c3Db) =
      some { entity_type := "person"
             entity_id := "nguyen_van_a"
             entity_name := "Nguyen Van A"
             attributes := [("dept", "eng"), ("jira_username", "nguyenvana")]
             relationships := none
             agent_name := some "hermes"
             last_mentioned := 5
             mention_count := 2
             importance := 0.5
             created_at := 0
             updated_at := 5 } := by
  refine ⟨⟨by decide, by decide⟩,
    store_entity_repeat_merges_attributes c3Second "hermes" c3Row 5 c3Db
      (by decide) (by decide) (by decide),
    by decide⟩

/-- C8: counterexample.  For an entity stored without an agent, a
repeated store overwrites nothing: the NULL-agent key never conflicts,
so the second store (name `Zeus Nexus`, default importance 0.5) leaves
the old row (name `Zeus`, importance 0.9) untouched and inserts a
duplicate; get-entity even keeps returning the old importance 0.9,
because the highest importance wins the ordering. -/
theorem store_entity_no_agent_no_overwrite_cx :
    (store_entity_memory c8NoAgentSecond 3 c8NoAgentDb).map
      (fun r => (r.entity_name, r.importance)) =
      [("Zeus", 0.9), ("Zeus Nexus", 0.5)] ∧
    (retrieve_entity "project" "zeus" none
        (store_entity_memory c8NoAgentSecond 3 c8NoAgentDb)).map
      (fun r => (r.entity_name, r.importance)) = some ("Zeus", 0.9) := by
  refine ⟨by decide, by decide⟩

/-- C8: amended claim.  On a repeated store-entity to an existing
composite key with a present (non-NULL) agent, the stored importance
and entity name are overwritten wholesale with the new caller-supplied
values, while the merge-union behaviour applies to the attribute map
only (old attribute keys absent from the new map are preserved).  With
an absent agent no overwrite happens at all: the old row survives and a
duplicate is inserted -- the counterexample above. -/
theorem store_entity_repeat_overwrites_importance_name (e : EntityMemoryIn) (a : String)
    (r0 : EntityRecord) (now : Int) (db : List EntityRecord)
    (ha : e.agent_name = some a)
    (hu : db.filter (entityConflict e.entity_type e.entity_id a) = [r0]) :
    ∃ r1, (store_entity_memory e now db).filter
        (entityConflict e.entity_type e.entity_id a) = [r1] ∧
      r1.importance = e.importance ∧
      r1.entity_name = e.entity_name ∧
      (∀ k, (e.attributes.lookup k).isNone →
        r1.attributes.lookup k = r0.attributes.lookup k) := by
  refine ⟨updateEntity e now r0, store_entity_existing e a r0 now db ha hu, rfl, rfl, ?_⟩
  intro k hk
  rw [show (updateEntity e now r0).attributes =
    jsonbConcat r0.attributes e.attributes from rfl]
  rw [lookup_jsonbConcat, Option.isNone_iff_eq_none.mp hk, Option.none_or]

/-- C8 witness: a second store at the default importance 0.5 replaces
the earlier stored importance 0.9 and the earlier name, while the old
attribute key survives. -/
theorem store_entity_repeat_overwrites_importance_name_witness :
    (c8Second.agent_name = some "athena" ∧
      c8Db.filter (entityConflict c8Second.entity_type c8Second.entity_id "athena") =
        [c8Row]) ∧
    (∃ r1, (store_entity_memory c8Second 3 c8Db).filter
        (entityConflict c8Second.entity_type c8Second.entity_id "athena") = [r1] ∧
      r1.importance = c8Second.importance ∧
      r1.entity_name = c8Second.entity_name ∧
      (∀ k, (c8Second.attributes.lookup k).isNone →
        r1.attributes.lookup k = c8Row.attributes.lookup k)) ∧
    (c8Row.importance = 0.9 ∧ c8Second.importance = 0.5 ∧
      (store_entity_memory c8Second 3 c8Db).map (fun r => r.importance) = [0.5]) := by
  refine ⟨⟨by decide, by decide⟩,
    store_entity_repeat_overwrites_importance_name c8Second "athena" c8Row 3 c8Db
      (by decide) (by decide),
    by decide, by decide, by decide⟩

/-- C6: round trip for working memory.  A store returns expiry
`now + ttlSeconds`, and any get-working for the same (truthy) key
strictly before that expiry succeeds and returns the shallow union of
the previously stored map and the newly written map, new keys winning:
every key of the written map is present with the value just written,
and old keys not overwritten remain.  The hypothesis bounds the key to
at most one stored row, the invariant of the unique index. -/
theorem store_then_get_working_superset (m : WorkingMemoryIn) (now t : Int)
    (db : List WorkingRecord)
    (huniq : (db.filter (workingKey m.agent_name m.session_id m.context_type)).length ≤ 1)
    (hct : m.context_type ≠ "")
    (ht : t < now + m.ttl_seconds) :
    (store_working_memory m now db).2 = now + m.ttl_seconds ∧
    ∃ r, retrieve_working_memory m.agent_name m.session_id (some m.context_type) t
        (store_working_memory m now db).1 = WorkingResponse.single r ∧
      (∀ k v, m.context_data.lookup k = some v → r.context_data.lookup k = some v) ∧
      (∀ k, r.context_data.lookup k =
        (m.context_data.lookup k).or ((workingOldData m db).lookup k)) := by
  refine ⟨rfl, ?_⟩
  cases hany : db.any (workingKey m.agent_name m.session_id m.context_type) with
  | false =>
    have hnil : db.filter (workingKey m.agent_name m.session_id m.context_type) = [] := by
      rw [List.filter_eq_nil_iff]
      intro x hx hkey
      rw [List.any_eq_true.mpr ⟨x, hx, hkey⟩] at hany
      exact Bool.noConfusion hany
    have hold : workingOldData m db = [] := by
      unfold workingOldData; rw [hnil]; rfl
    have hstate : (store_working_memory m now db).1 =
        db ++ [{ agent_name := m.agent_name, session_id := m.session_id,
                 context_type := m.context_type, context_data := m.context_data,
                 ttl_seconds := m.ttl_seconds, created_at := now,
                 expires_at := now + m.ttl_seconds }] := by
      unfold store_working_memory
      simp [hany]
    have h1 : db.filter (fun r =>
        workingKey m.agent_name m.session_id m.context_type r &&
          decide (t < r.expires_at)) = [] := by
      rw [List.filter_eq_nil_iff]
      intro x hx h
      rw [List.any_eq_true.mpr ⟨x, hx, ((Bool.and_eq_true _ _).mp h).1⟩] at hany
      exact Bool.noConfusion hany
    refine ⟨{ agent_name := m.agent_name, session_id := m.session_id,
              context_type := m.context_type, context_data := m.context_data,
              ttl_seconds := m.ttl_seconds, created_at := now,
              expires_at := now + m.ttl_seconds }, ?_, fun k v hv => hv, ?_⟩
    · rw [retrieve_working_single m.agent_name m.session_id m.context_type t _ hct]
      rw [hstate, List.filter_append, h1]
      simp only [List.nil_append, List.filter_cons, List.filter_nil]
      rw [if_pos (by simp [workingKey, ht])]
      rfl
    · intro k
      rw [hold]
      cases m.context_data.lookup k <;> rfl
  | true =>
    obtain ⟨x, hx, hkey⟩ := List.any_eq_true.mp hany
    have hpos : 0 < (db.filter (workingKey m.agent_name m.session_id m.context_type)).length :=
      List.length_pos.mpr (List.ne_nil_of_mem (List.mem_filter.mpr ⟨hx, hkey⟩))
    obtain ⟨r0, hfil⟩ := List.length_eq_one.mp (le_antisymm huniq hpos)
    have hold : workingOldData m db = r0.context_data := by
      unfold workingOldData; rw [hfil]; rfl
    have hstate : (store_working_memory m now db).1 =
        db.map (fun r =>
          if workingKey m.agent_name m.session_id m.context_type r then
            updateWorking m now (now + m.ttl_seconds) r
          else r) := by
      unfold store_working_memory
      simp only [hany, if_true]
    refine ⟨updateWorking m now (now + m.ttl_seconds) r0, ?_, ?_, ?_⟩
    · rw [retrieve_working_single m.agent_name m.session_id m.context_type t _ hct]
      rw [hstate]
      rw [filter_map_update (workingKey m.agent_name m.session_id m.context_type)
        (fun r => workingKey m.agent_name m.session_id m.context_type r &&
          decide (t < r.expires_at))
        (updateWorking m now (now + m.ttl_seconds)) db
        (fun y hy => by
          simp only [workingKey_updateWorking, hy, Bool.true_and]
          simp [updateWorking, ht])
        (fun y hy => by simp [hy])]
      rw [hfil]
      rfl
    · intro k v hv
      rw [show (updateWorking m now (now + m.ttl_seconds) r0).context_data =
        jsonbConcat r0.context_data m.context_data from rfl]
      rw [lookup_jsonbConcat, hv]
      rfl
    · intro k
      rw [show (updateWorking m now (now + m.ttl_seconds) r0).context_data =
        jsonbConcat r0.context_data m.context_data from rfl]
      rw [lookup_jsonbConcat, hold]

/-- C6 witness: the second store at time 100 with TTL 600 reports
expiry 700; a get at time 650 returns the merged map holding both the
old key and the new one; a get exactly at the expiry instant (700)
finds nothing, matching the strict before-expiry reading. -/
theorem store_then_get_working_superset_witness :
    ((c6Db.filter (workingKey c6Second.agent_name c6Second.session_id
        c6Second.context_type)).length ≤ 1 ∧
      c6Second.context_type ≠ "" ∧ (650 : Int) < 100 + c6Second.ttl_seconds) ∧
    ((store_working_memory c6Second 100 c6Db).2 = 100 + c6Second.ttl_seconds ∧
      ∃ r, retrieve_working_memory c6Second.agent_name c6Second.session_id
          (some c6Second.context_type) 650 (store_working_memory c6Second 100 c6Db).1 =
          WorkingResponse.single r ∧
        (∀ k v, c6Second.context_data.lookup k = some v →
          r.context_data.lookup k = some v) ∧
        (∀ k, r.context_data.lookup k =
          (c6Second.context_data.lookup k).or ((workingOldData c6Second c6Db).lookup k))) ∧
    (retrieve_working_memory "a" "s" (some "current_task") 650
        (store_working_memory c6Second 100 c6Db).1 =
      WorkingResponse.single
        { agent_name := "a", session_id := "s", context_type := "current_task"
          context_data := [("step", "plan"), ("phase", "exec")]
          ttl_seconds := 3600, created_at := 100, expires_at := 700 } ∧
      retrieve_working_memory "a" "s" (some "current_task") 700
        (store_working_memory c6Second 100 c6Db).1 = WorkingResponse.notFound) := by
  refine ⟨⟨by decide, by decide, by decide⟩,
    store_then_get_working_superset c6Second 100 650 c6Db
      (by decide) (by decide) (by decide),
    by decide, by decide⟩

/-- C9: a merging store-working to an existing key leaves the stored
`ttl_seconds` column at the value supplied by the first store (the
`DO UPDATE SET` clause does not list it), while `expires_at` reflects
the newly supplied TTL and `created_at` is reset to now rather than
kept at the original creation time. -/
theorem store_working_repeat_keeps_ttl_resets_created_at (m : WorkingMemoryIn)
    (now : Int) (db : List WorkingRecord) (r0 : WorkingRecord)
    (hu : db.filter (workingKey m.agent_name m.session_id m.context_type) = [r0]) :
    ∃ r1, (store_working_memory m now db).1.filter
        (workingKey m.agent_name m.session_id m.context_type) = [r1] ∧
      r1.ttl_seconds = r0.ttl_seconds ∧
      r1.expires_at = now + m.ttl_seconds ∧
      r1.created_at = now := by
  exact ⟨updateWorking m now (now + m.ttl_seconds) r0,
    store_working_existing m now db r0 hu, rfl, rfl, rfl⟩

/-- C9 witness: after a first store with TTL 3600 at time 0 and a
second store with TTL 60 at time 10, the stored row still carries
`ttl_seconds = 3600` but expires at 70 and was (re)created at 10. -/
theorem store_working_repeat_keeps_ttl_resets_created_at_witness :
    (c9Db.filter (workingKey c9Second.agent_name c9Second.session_id
        c9Second.context_type) = [c9Row]) ∧
    (∃ r1, (store_working_memory c9Second 10 c9Db).1.filter
        (workingKey c9Second.agent_name c9Second.session_id c9Second.context_type) =
        [r1] ∧
      r1.ttl_seconds = c9Row.ttl_seconds ∧
      r1.expires_at = 10 + c9Second.ttl_seconds ∧
      r1.created_at = 10) ∧
    (store_working_memory c9Second 10 c9Db).1 =
      [{ agent_name := "a", session_id := "s", context_type := "system_state"
         context_data := [("mode", "run")], ttl_seconds := 3600
         created_at := 10, expires_at := 70 }] := by
  refine ⟨by decide,
    store_working_repeat_keeps_ttl_resets_created_at c9Second 10 c9Db c9Row (by decide),
    by decide⟩

/-- C7: a consolidation run touches only Event Log rows of its
(agent, session) scope older than 24 hours with access count below 2,
of which at most 100 are fetched oldest-first.  With fewer than 10
fetched rows it changes no record and writes no log entry; otherwise
every fetched row with importance below 0.3 has its importance
multiplied by 0.8 (all other records are unchanged) and exactly one
consolidation log entry is appended whose source ids are exactly the
ids of the decayed rows.  Requires distinct row ids (the primary-key
invariant). -/
theorem run_consolidation_decay_batch (agent session : String) (now : Int)
    (db : ConvDB) (log : List ConsolidationRecord)
    (hids : (db.rows.map (fun r => r.id)).Nodup) :
    ((consolidationFetch agent session now db).length < 10 →
      run_consolidation agent session now db log = (db, log)) ∧
    (10 ≤ (consolidationFetch agent session now db).length →
      (∃ ids, (run_consolidation agent session now db log).2 =
        log ++ [{ agent_name := agent, consolidation_type := "reduce_importance",
                  source_ids := ids, result_count := ids.length, created_at := now }] ∧
        ∀ n, n ∈ ids ↔ ∃ r ∈ consolidationFetch agent session now db,
          r.importance_score < 0.3 ∧ r.id = n) ∧
      List.Forall₂ (fun r r' =>
        (r ∈ consolidationFetch agent session now db ∧ r.importance_score < 0.3 →
          r' = { r with importance_score := r.importance_score * 0.8 }) ∧
        (¬(r ∈ consolidationFetch agent session now db ∧ r.importance_score < 0.3) →
          r' = r))
        db.rows (run_consolidation agent session now db log).1.rows) := by
  constructor
  · intro h
    unfold run_consolidation
    rw [if_pos h]
  · intro h
    have hnot : ¬ (consolidationFetch agent session now db).length < 10 := Nat.not_lt.mpr h
    have hcontains : ∀ r ∈ db.rows,
        ((((consolidationFetch agent session now db).filter
          (fun x => x.importance_score < 0.3)).map (fun x => x.id)).contains r.id = true ↔
        (r ∈ consolidationFetch agent session now db ∧ r.importance_score < 0.3)) := by
      intro r hr
      rw [List.elem_iff, List.mem_map]
      constructor
      · rintro ⟨x, hxf, hxid⟩
        obtain ⟨hxF, hxlow⟩ := List.mem_filter.mp hxf
        have hxdb := consolidationFetch_subset agent session now db x hxF
        have hxr : x = r := List.inj_on_of_nodup_map hids hxdb hr hxid
        subst hxr
        exact ⟨hxF, of_decide_eq_true hxlow⟩
      · rintro ⟨hF, hlow⟩
        exact ⟨r, List.mem_filter.mpr ⟨hF, decide_eq_true hlow⟩, rfl⟩
    refine ⟨⟨((consolidationFetch agent session now db).filter
        (fun x => x.importance_score < 0.3)).map (fun x => x.id), ?_, ?_⟩, ?_⟩
    · unfold run_consolidation
      rw [if_neg hnot]
    · intro n
      rw [List.mem_map]
      constructor
      · rintro ⟨x, hxf, hxid⟩
        obtain ⟨hxF, hxlow⟩ := List.mem_filter.mp hxf
        exact ⟨x, hxF, of_decide_eq_true hxlow, hxid⟩
      · rintro ⟨x, hxF, hxlow, hxid⟩
        exact ⟨x, List.mem_filter.mpr ⟨hxF, decide_eq_true hxlow⟩, hxid⟩
    · have hrows : (run_consolidation agent session now db log).1 =
          (if (((consolidationFetch agent session now db).filter
              (fun x => x.importance_score < 0.3)).map (fun x => x.id)).isEmpty then db
           else { db with rows := db.rows.map (fun r =>
             if (((consolidationFetch agent session now db).filter
                 (fun x => x.importance_score < 0.3)).map (fun x => x.id)).contains r.id then
               { r with importance_score := r.importance_score * 0.8 }
             else r) }) := by
        unfold run_consolidation
        rw [if_neg hnot]
      cases hemp : (((consolidationFetch agent session now db).filter
          (fun x => x.importance_score < 0.3)).map (fun x => x.id)).isEmpty with
      | true =>
        rw [hrows, if_pos hemp]
        rw [List.forall₂_same]
        intro r hr
        have hfilnil : (consolidationFetch agent session now db).filter
            (fun x => x.importance_score < 0.3) = [] :=
          List.map_eq_nil_iff.mp (List.isEmpty_iff.mp hemp)
        refine ⟨?_, fun _ => rfl⟩
        rintro ⟨hF, hlow⟩
        have : r ∈ (consolidationFetch agent session now db).filter
            (fun x => x.importance_score < 0.3) :=
          List.mem_filter.mpr ⟨hF, decide_eq_true hlow⟩
        rw [hfilnil] at this
        exact absurd this (List.not_mem_nil r)
      | false =>
        rw [hrows, if_neg (by rw [hemp]; exact Bool.noConfusion)]
        rw [show ({ db with rows := db.rows.map (fun r =>
          if (((consolidationFetch agent session now db).filter
              (fun x => x.importance_score < 0.3)).map (fun x => x.id)).contains r.id then
            { r with importance_score := r.importance_score * 0.8 }
          else r) } : ConvDB).rows = db.rows.map (fun r =>
          if (((consolidationFetch agent session now db).filter
              (fun x => x.importance_score < 0.3)).map (fun x => x.id)).contains r.id then
            { r with importance_score := r.importance_score * 0.8 }
          else r) from rfl]
        rw [List.forall₂_map_right_iff, List.forall₂_same]
        intro r hr
        by_cases hc : (((consolidationFetch agent session now db).filter
            (fun x => x.importance_score < 0.3)).map (fun x => x.id)).contains r.id = true
        · rw [if_pos hc]
          exact ⟨fun _ => rfl, fun hn => absurd ((hcontains r hr).mp hc) hn⟩
        · rw [if_neg hc]
          refine ⟨fun hFl => absurd ((hcontains r hr).mpr hFl) hc, fun _ => rfl⟩

/-- C7 witness: 12 qualifying rows at importance 0.2 each decay to
0.16 with exactly one log entry referencing all 12 ids; with only 5
qualifying rows nothing changes. -/
theorem run_consolidation_decay_batch_witness :
    ((c7Db.rows.map (fun r => r.id)).Nodup ∧
      10 ≤ (consolidationFetch "a" "s" c7Now c7Db).length) ∧
    ((∃ ids, (run_consolidation "a" "s" c7Now c7Db []).2 =
        [] ++ [{ agent_name := "a", consolidation_type := "reduce_importance",
                 source_ids := ids, result_count := ids.length, created_at := c7Now }] ∧
        ∀ n, n ∈ ids ↔ ∃ r ∈ consolidationFetch "a" "s" c7Now c7Db,
          r.importance_score < 0.3 ∧ r.id = n) ∧
      List.Forall₂ (fun r r' =>
        (r ∈ consolidationFetch "a" "s" c7Now c7Db ∧ r.importance_score < 0.3 →
          r' = { r with importance_score := r.importance_score * 0.8 }) ∧
        (¬(r ∈ consolidationFetch "a" "s" c7Now c7Db ∧ r.importance_score < 0.3) →
          r' = r))
        c7Db.rows (run_consolidation "a" "s" c7Now c7Db []).1.rows) ∧
    ((run_consolidation "a" "s" c7Now c7Db []).1.rows.map
        (fun r => r.importance_score) = List.replicate 12 0.16 ∧
      (run_consolidation "a" "s" c7Now c7Db []).2 =
        [{ agent_name := "a", consolidation_type := "reduce_importance",
           source_ids := [1, 2, 3, 4, 5, 6, 7, 8, 9, 10, 11, 12],
           result_count := 12, created_at := c7Now }] ∧
      ((consolidationFetch "a" "s" c7Now c7SmallDb).length < 10 ∧
        run_consolidation "a" "s" c7Now c7SmallDb [] = (c7SmallDb, []))) := by
  refine ⟨⟨by decide, by decide⟩,
    (run_consolidation_decay_batch "a" "s" c7Now c7Db [] (by decide)).2 (by decide),
    by decide, by decide, by decide,
    (run_consolidation_decay_batch "a" "s" c7Now c7SmallDb [] (by decide)).1 (by decide)⟩

/-- C10: a consolidation run that fetches at least 10 qualifying rows
none of which is below the 0.3 importance threshold changes no record
but still appends exactly one consolidation log entry with an empty
source-id list and a result count of 0. -/
theorem run_consolidation_empty_batch_logged (agent session : String) (now : Int)
    (db : ConvDB) (log : List ConsolidationRecord)
    (hlen : 10 ≤ (consolidationFetch agent session now db).length)
    (hnone : ∀ r ∈ consolidationFetch agent session now db,
      ¬ r.importance_score < 0.3) :
    run_consolidation agent session now db log =
      (db, log ++ [{ agent_name := agent, consolidation_type := "reduce_importance",
                     source_ids := [], result_count := 0, created_at := now }]) := by
  have hnot : ¬ (consolidationFetch agent session now db).length < 10 := Nat.not_lt.mpr hlen
  have hfilnil : (consolidationFetch agent session now db).filter
      (fun x => x.importance_score < 0.3) = [] := by
    rw [List.filter_eq_nil_iff]
    intro x hx hlow
    exact hnone x hx (of_decide_eq_true hlow)
  unfold run_consolidation
  rw [if_neg hnot, hfilnil]
  rfl

/-- C10 witness: ten qualifying rows at importance 0.5 are left
unchanged while one log entry with an empty id list and count 0 is
written. -/
theorem run_consolidation_empty_batch_logged_witness :
    (10 ≤ (consolidationFetch "a" "s" c7Now c10Db).length ∧
      ∀ r ∈ consolidationFetch "a" "s" c7Now c10Db, ¬ r.importance_score < 0.3) ∧
    run_consolidation "a" "s" c7Now c10Db [] =
      (c10Db, [] ++ [{ agent_name := "a", consolidation_type := "reduce_importance",
                       source_ids := [], result_count := 0, created_at := c7Now }]) := by
  refine ⟨⟨by decide, by decide⟩,
    run_consolidation_empty_batch_logged "a" "s" c7Now c10Db [] (by decide) (by decide)⟩

end

end ContextStorage
